import Mathlib

/-!
Shallow embedding of the authentication core of `playwright-auth-screenshot`:
the preset table (`presets.ts`), the selector resolver, the login flow engine
(`authenticate`) and the success detector (`waitForLoginSuccess`) from
`src/auth.ts`.  JavaScript optional string fields become `Option String`; the
`||` defaulting on strings and the `??` operator become explicit helpers; the
Playwright `Page` becomes a trace of driver calls, executed against an
environment that decides which calls succeed.
-/

namespace PlaywrightAuth

/-- JavaScript `a || d` on an optional string: the empty string and
`undefined` are falsy, any other string is returned verbatim. -/
def strOr (o : Option String) (d : String) : String :=
  match o with
  | some s => if s = "" then d else s
  | none => d

/-- JavaScript `a || b` where both sides are optional strings
(used for `continueSelector`). -/
def optOr (o : Option String) (d : Option String) : Option String :=
  match o with
  | some s => if s = "" then d else some s
  | none => d

/-- JavaScript truthiness of a `string | undefined` value:
true exactly for a present, non-empty string. -/
def strTruthy : Option String → Bool
  | some s => s ≠ ""
  | none => false

/-- `AuthConfig` from `types.ts`: caller-supplied input.  Optional fields are
`Option`s; `multiStep` is tri-state (`none` = inherit from preset). -/
structure AuthConfig where
  loginUrl : String
  email : String
  password : String
  preset : Option String := none
  emailSelector : Option String := none
  passwordSelector : Option String := none
  submitSelector : Option String := none
  successUrlPattern : Option String := none
  successSelector : Option String := none
  multiStep : Option Bool := none
  continueSelector : Option String := none
deriving DecidableEq

/-- `AuthPreset` from `types.ts`. -/
structure AuthPreset where
  loginPath : String
  emailSelector : String
  passwordSelector : String
  submitSelector : String
  successUrlPattern : String
  multiStep : Bool
  continueSelector : Option String := none
deriving DecidableEq

/-- The `supabase` entry of `PRESETS` in `presets.ts`. -/
def supabasePreset : AuthPreset :=
  { loginPath := "/auth/login"
    emailSelector := "input[type=\"email\"], input#email"
    passwordSelector := "input[type=\"password\"], input#password"
    submitSelector := "button[type=\"submit\"]"
    successUrlPattern := "/"
    multiStep := false }

/-- The `clerk` entry of `PRESETS` in `presets.ts`. -/
def clerkPreset : AuthPreset :=
  { loginPath := "/sign-in"
    emailSelector := "input[name=\"identifier\"], input#identifier-field"
    passwordSelector := "input[name=\"password\"], input#password-field"
    submitSelector := "button[type=\"submit\"], button.cl-formButtonPrimary"
    successUrlPattern := "/"
    multiStep := true
    continueSelector := some "button[type=\"submit\"]" }

/-- The `salesforce` entry of `PRESETS` in `presets.ts`. -/
def salesforcePreset : AuthPreset :=
  { loginPath := "/login"
    emailSelector := "input#username"
    passwordSelector := "input#password"
    submitSelector := "input#Login"
    successUrlPattern := "/home"
    multiStep := false }

/-- The `generic` entry of `PRESETS` in `presets.ts`. -/
def genericPreset : AuthPreset :=
  { loginPath := "/login"
    emailSelector := "input[type=\"email\"], input[name=\"email\"]"
    passwordSelector := "input[type=\"password\"], input[name=\"password\"]"
    submitSelector := "button[type=\"submit\"]"
    successUrlPattern := "/"
    multiStep := false }

/-- The `PRESETS` table of `presets.ts`, as a finite map on its four keys. -/
def PRESETS (k : String) : Option AuthPreset :=
  match k with
  | "supabase" => some supabasePreset
  | "clerk" => some clerkPreset
  | "salesforce" => some salesforcePreset
  | "generic" => some genericPreset
  | _ => none

/-- `PRESETS[auth.preset || 'generic'] || PRESETS.generic`
(auth.ts line 17): preset lookup with double fallback to `generic`. -/
def lookupPreset (preset : Option String) : AuthPreset :=
  (PRESETS (strOr preset "generic")).getD genericPreset

/-- The resolved selector bundle: return type of `resolveSelectors`. -/
structure ResolvedSelectors where
  emailSelector : String
  passwordSelector : String
  submitSelector : String
  successUrlPattern : String
  successSelector : Option String
  multiStep : Bool
  continueSelector : Option String
deriving DecidableEq

/-- `resolveSelectors` from auth.ts lines 8-28: field-wise merge of the
overrides onto the preset; `||` on strings, `??` on `multiStep`. -/
def resolveSelectors (auth : AuthConfig) : ResolvedSelectors :=
  let preset := lookupPreset auth.preset
  { emailSelector := strOr auth.emailSelector preset.emailSelector
    passwordSelector := strOr auth.passwordSelector preset.passwordSelector
    submitSelector := strOr auth.submitSelector preset.submitSelector
    successUrlPattern := strOr auth.successUrlPattern preset.successUrlPattern
    successSelector := auth.successSelector
    multiStep := auth.multiStep.getD preset.multiStep
    continueSelector := optOr auth.continueSelector preset.continueSelector }

/-- One call issued by the engine to the page-automation driver.
`waitForSelector`'s `visible` flag records whether `state: 'visible'` was
passed; `waitForURL` records the pattern that parametrises the predicate. -/
inductive DriverCall where
  | goto (url : String) (waitUntil : String) (timeout : Nat)
  | waitForSelector (selector : String) (timeout : Nat) (visible : Bool)
  | fill (selector : String) (value : String)
  | click (selector : String)
  | waitForURL (pattern : String) (timeout : Nat)
  | waitForTimeout (ms : Nat)
deriving DecidableEq

/-- Does a needle occur at the head of the haystack? -/
def startsWithChars : List Char → List Char → Bool
  | _, [] => true
  | [], _ :: _ => false
  | a :: as, b :: bs => a = b && startsWithChars as bs

/-- Character-list substring scan underlying JavaScript
`String.prototype.includes`. -/
def containsChars (needle : List Char) : List Char → Bool
  | [] => needle.isEmpty
  | a :: t => startsWithChars (a :: t) needle || containsChars needle t

/-- JavaScript `hay.includes(needle)`: substring containment. -/
def includes (hay needle : String) : Bool :=
  containsChars needle.toList hay.toList

/-- The URL predicate of the success detector (auth.ts lines 89-97), applied
to the current page's `pathname`: for the literal pattern `"/"` a negative
heuristic, otherwise substring containment of the pattern. -/
def urlSuccess (pattern : String) (pathname : String) : Bool :=
  if pattern = "/" then
    !(includes pathname "/login") && !(includes pathname "/sign-in") &&
      !(includes pathname "/auth/")
  else includes pathname pattern

/-- The success-detection branch when the selector strategy does not apply
(auth.ts lines 87-104): URL-pattern wait if the pattern is truthy, else the
fixed 5-second fallback. -/
def successCallsUrl (sel : ResolvedSelectors) : List DriverCall :=
  if sel.successUrlPattern ≠ "" then
    [DriverCall.waitForURL sel.successUrlPattern 15000]
  else
    [DriverCall.waitForTimeout 5000]

/-- The single driver call chosen by `waitForLoginSuccess` (auth.ts lines
76-105): selector strategy if `successSelector` is truthy, else the URL
branch. -/
def successCalls (sel : ResolvedSelectors) : List DriverCall :=
  match sel.successSelector with
  | some s =>
    if s = "" then successCallsUrl sel
    else [DriverCall.waitForSelector s 15000 false]
  | none => successCallsUrl sel

/-- The full call sequence `authenticate` issues when every step succeeds
(auth.ts lines 41-74): navigate, wait for and fill the email field, the
optional multi-step continuation, fill password, submit, detect success. -/
def plannedCalls (auth : AuthConfig) : List DriverCall :=
  let sel := resolveSelectors auth
  [DriverCall.goto auth.loginUrl "networkidle" 30000,
   DriverCall.waitForSelector sel.emailSelector 10000 false,
   DriverCall.fill sel.emailSelector auth.email]
  ++ (if sel.multiStep then
        [DriverCall.click (strOr sel.continueSelector sel.submitSelector),
         DriverCall.waitForSelector sel.passwordSelector 10000 true]
      else [])
  ++ [DriverCall.fill sel.passwordSelector auth.password,
      DriverCall.click sel.submitSelector]
  ++ successCalls sel

/-- Which driver calls can fail: `page.waitForTimeout` never throws, every
other operation can time out or fail. -/
def canFail : DriverCall → Bool
  | DriverCall.waitForTimeout _ => false
  | _ => true

/-- Execute a planned call sequence against an environment deciding which
calls succeed: the first failing call aborts the run (an exception
propagates), so the trace stops there. -/
def execCalls (env : DriverCall → Bool) : List DriverCall → List DriverCall × Bool
  | [] => ([], true)
  | c :: cs =>
    if canFail c && !(env c) then ([c], false)
    else
      let r := execCalls env cs
      (c :: r.1, r.2)

/-- `authenticate` from auth.ts lines 41-74: the trace of driver calls it
issues and whether it returned normally. -/
def authenticate (env : DriverCall → Bool) (auth : AuthConfig) :
    List DriverCall × Bool :=
  execCalls env (plannedCalls auth)

/-- `waitForLoginSuccess` from auth.ts lines 76-105 in isolation. -/
def waitForLoginSuccess (env : DriverCall → Bool) (sel : ResolvedSelectors) :
    List DriverCall × Bool :=
  execCalls env (successCalls sel)

/-- Is a call a `fill`? -/
def isFill : DriverCall → Bool
  | DriverCall.fill _ _ => true
  | _ => false

/-- Is a call a `click`? -/
def isClick : DriverCall → Bool
  | DriverCall.click _ => true
  | _ => false

/-- Is a call a `waitForURL` (evaluation of the URL predicate)? -/
def isWaitURL : DriverCall → Bool
  | DriverCall.waitForURL _ _ => true
  | _ => false

/-- The timeout option a call was given, when it takes one. -/
def timeoutOf : DriverCall → Option Nat
  | DriverCall.goto _ _ t => some t
  | DriverCall.waitForSelector _ t _ => some t
  | DriverCall.waitForURL _ t => some t
  | _ => none

/-- An `AuthConfig` naming a preset with no selector overrides. -/
def bareConfig (p : String) : AuthConfig :=
  { loginUrl := "https://example.com/login"
    email := "user@example.com"
    password := "secret"
    preset := some p }

/-- The resolved bundle agrees with a preset on every field present on
both. -/
def agreesWithPreset (sel : ResolvedSelectors) (p : AuthPreset) : Prop :=
  sel.emailSelector = p.emailSelector ∧
  sel.passwordSelector = p.passwordSelector ∧
  sel.submitSelector = p.submitSelector ∧
  sel.successUrlPattern = p.successUrlPattern ∧
  sel.multiStep = p.multiStep ∧
  sel.continueSelector = p.continueSelector

instance (sel : ResolvedSelectors) (p : AuthPreset) :
    Decidable (agreesWithPreset sel p) := by
  unfold agreesWithPreset; infer_instance

/-- A resolved bundle with no success strategy configured (not producible
by the resolver; used to exercise the detector's fallback branch). -/
def noStrategyBundle : ResolvedSelectors :=
  { emailSelector := "input#email"
    passwordSelector := "input#password"
    submitSelector := "button"
    successUrlPattern := ""
    successSelector := none
    multiStep := false
    continueSelector := none }

/-- An environment in which every `waitForSelector` call fails and all
other calls succeed. -/
def failSelectorWaits : DriverCall → Bool
  | DriverCall.waitForSelector _ _ _ => false
  | _ => true

theorem strOr_ne_empty (o : Option String) (d : String) (h : d ≠ "") :
    strOr o d ≠ "" := by
  unfold strOr
  match o with
  | none => exact h
  | some s =>
    by_cases hs : s = "" <;> simp [hs, h]

theorem lookupPreset_unknown (o : Option String)
    (h : o = none ∨ ∃ s, o = some s ∧ s ≠ "supabase" ∧ s ≠ "clerk" ∧
      s ≠ "salesforce" ∧ s ≠ "generic") :
    lookupPreset o = genericPreset := by
  rcases h with h | ⟨s, hs, h1, h2, h3, h4⟩
  · subst h; rfl
  · subst hs
    by_cases he : s = ""
    · subst he; rfl
    · show (PRESETS (strOr (some s) "generic")).getD genericPreset = genericPreset
      rw [show strOr (some s) "generic" = s by simp [strOr, he]]
      unfold PRESETS
      split
      · exact absurd rfl h1
      · exact absurd rfl h2
      · exact absurd rfl h3
      · exact absurd rfl h4
      · rfl

theorem lookupPreset_pattern_ne_empty (o : Option String) :
    (lookupPreset o).successUrlPattern ≠ "" := by
  unfold lookupPreset PRESETS
  split <;> decide

/-- C1: the resolver returns the override verbatim for each of
`emailSelector`, `passwordSelector`, `submitSelector`, `continueSelector`,
`successUrlPattern` whenever it is a non-empty string, and otherwise the
chosen preset's default for that field; and resolving a config naming a
preset with no overrides returns exactly that preset's defaults on every
shared field. -/
theorem resolve_override_precedence (auth : AuthConfig) :
    (∀ s, s ≠ "" → auth.emailSelector = some s →
      (resolveSelectors auth).emailSelector = s) ∧
    (∀ s, s ≠ "" → auth.passwordSelector = some s →
      (resolveSelectors auth).passwordSelector = s) ∧
    (∀ s, s ≠ "" → auth.submitSelector = some s →
      (resolveSelectors auth).submitSelector = s) ∧
    (∀ s, s ≠ "" → auth.continueSelector = some s →
      (resolveSelectors auth).continueSelector = some s) ∧
    (∀ s, s ≠ "" → auth.successUrlPattern = some s →
      (resolveSelectors auth).successUrlPattern = s) ∧
    ((auth.emailSelector = none ∨ auth.emailSelector = some "") →
      (resolveSelectors auth).emailSelector =
        (lookupPreset auth.preset).emailSelector) ∧
    ((auth.passwordSelector = none ∨ auth.passwordSelector = some "") →
      (resolveSelectors auth).passwordSelector =
        (lookupPreset auth.preset).passwordSelector) ∧
    ((auth.submitSelector = none ∨ auth.submitSelector = some "") →
      (resolveSelectors auth).submitSelector =
        (lookupPreset auth.preset).submitSelector) ∧
    ((auth.continueSelector = none ∨ auth.continueSelector = some "") →
      (resolveSelectors auth).continueSelector =
        (lookupPreset auth.preset).continueSelector) ∧
    ((auth.successUrlPattern = none ∨ auth.successUrlPattern = some "") →
      (resolveSelectors auth).successUrlPattern =
        (lookupPreset auth.preset).successUrlPattern) ∧
    (agreesWithPreset (resolveSelectors (bareConfig "supabase")) supabasePreset ∧
     agreesWithPreset (resolveSelectors (bareConfig "clerk")) clerkPreset ∧
     agreesWithPreset (resolveSelectors (bareConfig "salesforce")) salesforcePreset ∧
     agreesWithPreset (resolveSelectors (bareConfig "generic")) genericPreset) := by
  refine ⟨?_, ?_, ?_, ?_, ?_, ?_, ?_, ?_, ?_, ?_, by decide, by decide, by decide,
    by decide⟩
  · intro s hs h; simp [resolveSelectors, strOr, h, hs]
  · intro s hs h; simp [resolveSelectors, strOr, h, hs]
  · intro s hs h; simp [resolveSelectors, strOr, h, hs]
  · intro s hs h; simp [resolveSelectors, optOr, h, hs]
  · intro s hs h; simp [resolveSelectors, strOr, h, hs]
  · rintro (h | h) <;> simp [resolveSelectors, strOr, h]
  · rintro (h | h) <;> simp [resolveSelectors, strOr, h]
  · rintro (h | h) <;> simp [resolveSelectors, strOr, h]
  · rintro (h | h) <;> simp [resolveSelectors, optOr, h]
  · rintro (h | h) <;> simp [resolveSelectors, strOr, h]

/-- Closed instance of C1: a non-empty `emailSelector` override on the
`salesforce` preset is returned verbatim. -/
theorem resolve_override_precedence_witness :
    (resolveSelectors
      { bareConfig "salesforce" with emailSelector := some "input#custom" }).emailSelector
      = "input#custom" :=
  (resolve_override_precedence
    { bareConfig "salesforce" with emailSelector := some "input#custom" }).1
    "input#custom" (by decide) rfl

/-- C2: preset lookup is total — with `preset` absent or any string other
than the four built-in keys, resolution behaves exactly as with
`preset = "generic"`. -/
theorem lookup_total_generic_fallback (auth : AuthConfig)
    (h : auth.preset = none ∨ ∃ s, auth.preset = some s ∧ s ≠ "supabase" ∧
      s ≠ "clerk" ∧ s ≠ "salesforce" ∧ s ≠ "generic") :
    resolveSelectors auth = resolveSelectors { auth with preset := some "generic" } := by
  have h1 : lookupPreset auth.preset = genericPreset := lookupPreset_unknown _ h
  have h2 : lookupPreset (some "generic") = genericPreset := by decide
  simp [resolveSelectors, h1, h2]

/-- Closed instance of C2: an unknown preset name resolves like
`"generic"`. -/
theorem lookup_total_generic_fallback_witness :
    resolveSelectors (bareConfig "unknown-provider") =
      resolveSelectors { bareConfig "unknown-provider" with preset := some "generic" } :=
  lookup_total_generic_fallback _
    (Or.inr ⟨"unknown-provider", rfl, by decide, by decide, by decide, by decide⟩)

/-- C3: `multiStep` resolution uses presence/absence, not truthiness: an
explicitly set value (true or false) wins, the preset default applies only
when unset; in particular `{preset: "clerk", multiStep: false}` resolves to
`multiStep = false` although the clerk preset defaults to true. -/
theorem multiStep_presence_override (auth : AuthConfig) :
    (∀ b : Bool, auth.multiStep = some b → (resolveSelectors auth).multiStep = b) ∧
    (auth.multiStep = none →
      (resolveSelectors auth).multiStep = (lookupPreset auth.preset).multiStep) ∧
    (resolveSelectors { bareConfig "clerk" with multiStep := some false }).multiStep
      = false ∧
    clerkPreset.multiStep = true := by
  refine ⟨?_, ?_, by decide, by decide⟩
  · intro b h; simp [resolveSelectors, h]
  · intro h; simp [resolveSelectors, h]

/-- Closed instance of C3: an explicit `multiStep = false` override on
`clerk` resolves to `false`. -/
theorem multiStep_presence_override_witness :
    (resolveSelectors { bareConfig "clerk" with multiStep := some false }).multiStep
      = false :=
  (multiStep_presence_override { bareConfig "clerk" with multiStep := some false }).1
    false rfl

theorem startsWithChars_correct (n : List Char) :
    ∀ l, startsWithChars l n = true ↔ ∃ t, n ++ t = l := by
  induction n with
  | nil =>
    intro l
    simp [startsWithChars]
  | cons b bs ih =>
    intro l
    cases l with
    | nil => simp [startsWithChars]
    | cons a as =>
      simp only [startsWithChars, Bool.and_eq_true, decide_eq_true_eq, ih,
        List.cons_append, List.cons.injEq]
      constructor
      · rintro ⟨rfl, t, rfl⟩
        exact ⟨t, rfl, rfl⟩
      · rintro ⟨t, rfl, rfl⟩
        exact ⟨rfl, t, rfl⟩

theorem containsChars_correct (n : List Char) :
    ∀ l, containsChars n l = true ↔ ∃ s t, s ++ n ++ t = l := by
  intro l
  induction l with
  | nil =>
    rw [containsChars]
    constructor
    · intro h
      have hn : n = [] := by
        cases n with
        | nil => rfl
        | cons x xs => simp [List.isEmpty] at h
      exact ⟨[], [], by simp [hn]⟩
    · rintro ⟨s, t, h⟩
      have h1 := List.append_eq_nil.mp h
      have h2 := List.append_eq_nil.mp h1.1
      simp [h2.2, List.isEmpty]
  | cons a as ih =>
    simp only [containsChars, Bool.or_eq_true, ih, startsWithChars_correct]
    constructor
    · rintro (⟨t, ht⟩ | ⟨s, t, rfl⟩)
      · exact ⟨[], t, by simpa using ht⟩
      · exact ⟨a :: s, t, rfl⟩
    · rintro ⟨s, t, h⟩
      cases s with
      | nil =>
        left
        exact ⟨t, by simpa using h⟩
      | cons b bs =>
        right
        simp only [List.cons_append] at h
        injection h with h1 h2
        exact ⟨bs, t, h2⟩

theorem includes_correct (hay needle : String) :
    includes hay needle = true ↔
      ∃ s t, s ++ needle.toList ++ t = hay.toList :=
  containsChars_correct needle.toList hay.toList

/-- C4: the success detector executes exactly one of its three strategies,
in fixed priority order: a truthy `successSelector` yields only the
selector wait — never a `waitForURL` evaluation of the URL predicate —
and the URL strategy runs exactly when `successSelector` is not set and
`successUrlPattern` is. -/
theorem success_detector_priority (sel : ResolvedSelectors) :
    (strTruthy sel.successSelector = true →
      (∃ s, sel.successSelector = some s ∧
        successCalls sel = [DriverCall.waitForSelector s 15000 false]) ∧
      ∀ c ∈ successCalls sel, isWaitURL c = false) ∧
    (strTruthy sel.successSelector = false → sel.successUrlPattern ≠ "" →
      successCalls sel = [DriverCall.waitForURL sel.successUrlPattern 15000]) ∧
    (successCalls sel).length = 1 := by
  refine ⟨?_, ?_, ?_⟩
  · intro h
    match hs : sel.successSelector with
    | none => simp [strTruthy, hs] at h
    | some s =>
      have hne : s ≠ "" := by simpa [strTruthy, hs] using h
      refine ⟨⟨s, rfl, by simp [successCalls, hs, hne]⟩, ?_⟩
      simp [successCalls, hs, hne, isWaitURL]
  · intro h hp
    match hs : sel.successSelector with
    | none => simp [successCalls, successCallsUrl, hs, hp]
    | some s =>
      have he : s = "" := by
        by_contra hne
        simp [strTruthy, hs, hne] at h
      simp [successCalls, successCallsUrl, hs, he, hp]
  · match hs : sel.successSelector with
    | none =>
      by_cases hp : sel.successUrlPattern = "" <;>
        simp [successCalls, successCallsUrl, hs, hp]
    | some s =>
      by_cases he : s = ""
      · by_cases hp : sel.successUrlPattern = "" <;>
          simp [successCalls, successCallsUrl, hs, he, hp]
      · simp [successCalls, hs, he]

/-- Closed instance of C4: with both `successSelector` and a URL pattern
set, only the selector strategy is chosen. -/
theorem success_detector_priority_witness :
    ∃ s, (resolveSelectors { bareConfig "supabase" with
        successSelector := some "nav.dashboard" }).successSelector = some s ∧
      successCalls (resolveSelectors { bareConfig "supabase" with
        successSelector := some "nav.dashboard" }) =
        [DriverCall.waitForSelector s 15000 false] :=
  ((success_detector_priority (resolveSelectors { bareConfig "supabase" with
    successSelector := some "nav.dashboard" })).1 (by decide)).1

/-- C5: the URL-pattern predicate: for the literal pattern `"/"`, a path
succeeds iff it contains none of the substrings `/login`, `/sign-in`,
`/auth/`; for any other pattern, iff it contains the pattern as a
substring; with the spec's four concrete examples. -/
theorem url_pattern_predicate (pattern path : String) :
    (pattern = "/" →
      (urlSuccess pattern path = true ↔
        ¬(∃ s t, s ++ "/login".toList ++ t = path.toList) ∧
        ¬(∃ s t, s ++ "/sign-in".toList ++ t = path.toList) ∧
        ¬(∃ s t, s ++ "/auth/".toList ++ t = path.toList))) ∧
    (pattern ≠ "/" →
      (urlSuccess pattern path = true ↔
        ∃ s t, s ++ pattern.toList ++ t = path.toList)) ∧
    urlSuccess "/" "/dashboard" = true ∧
    urlSuccess "/" "/auth/login" = false ∧
    urlSuccess "/home" "/org/home" = true ∧
    urlSuccess "/home" "/dashboard" = false := by
  refine ⟨?_, ?_, by decide, by decide, by decide, by decide⟩
  · intro h
    subst h
    unfold urlSuccess
    rw [if_pos rfl]
    simp only [Bool.and_eq_true, Bool.not_eq_true', Bool.eq_false_iff, Ne,
      includes_correct]
    exact and_assoc
  · intro h
    unfold urlSuccess
    rw [if_neg h]
    simp only [includes_correct]

/-- Closed instance of C5: pattern `/home` succeeds on path `/org/home` by
substring containment. -/
theorem url_pattern_predicate_witness :
    urlSuccess "/home" "/org/home" = true :=
  ((url_pattern_predicate "/home" "/org/home").2.1 (by decide)).mpr
    ⟨"/org".toList, [], by decide⟩

/-- C7: with neither `successSelector` nor `successUrlPattern` set, the
detector issues only the fixed 5-second wait and reports success no matter
how the environment behaves. -/
theorem fallback_unconditional (env : DriverCall → Bool) (sel : ResolvedSelectors)
    (h1 : strTruthy sel.successSelector = false)
    (h2 : sel.successUrlPattern = "") :
    waitForLoginSuccess env sel = ([DriverCall.waitForTimeout 5000], true) := by
  have hc : successCalls sel = [DriverCall.waitForTimeout 5000] := by
    match hs : sel.successSelector with
    | none => simp [successCalls, successCallsUrl, hs, h2]
    | some s =>
      have he : s = "" := by
        by_contra hne
        simp [strTruthy, hs, hne] at h1
      simp [successCalls, successCallsUrl, hs, he, h2]
  unfold waitForLoginSuccess
  rw [hc]
  simp [execCalls, canFail]

/-- Closed instance of C7: the fallback reports success even when the
environment fails every call. -/
theorem fallback_unconditional_witness :
    waitForLoginSuccess (fun _ => false) noStrategyBundle =
      ([DriverCall.waitForTimeout 5000], true) :=
  fallback_unconditional (fun _ => false) noStrategyBundle rfl rfl

/-- C10: every resolver-produced bundle has a non-empty
`successUrlPattern` (every preset supplies one), so whenever
`successSelector` is unset the URL strategy runs, and the detector's
5-second unconditional-success fallback is unreachable from resolved
bundles. -/
theorem resolved_pattern_nonempty (auth : AuthConfig) :
    (resolveSelectors auth).successUrlPattern ≠ "" ∧
    (strTruthy (resolveSelectors auth).successSelector = false →
      successCalls (resolveSelectors auth) =
        [DriverCall.waitForURL (resolveSelectors auth).successUrlPattern 15000]) ∧
    (∀ c ∈ successCalls (resolveSelectors auth),
      c ≠ DriverCall.waitForTimeout 5000) := by
  have hne : (resolveSelectors auth).successUrlPattern ≠ "" := by
    have heq : (resolveSelectors auth).successUrlPattern =
        strOr auth.successUrlPattern (lookupPreset auth.preset).successUrlPattern := rfl
    rw [heq]
    exact strOr_ne_empty _ _ (lookupPreset_pattern_ne_empty _)
  refine ⟨hne, ?_, ?_⟩
  · intro h
    match hs : (resolveSelectors auth).successSelector with
    | none => simp [successCalls, successCallsUrl, hs, hne]
    | some s =>
      have he : s = "" := by
        by_contra hx
        simp [strTruthy, hs, hx] at h
      simp [successCalls, successCallsUrl, hs, he, hne]
  · intro c hc
    match hs : (resolveSelectors auth).successSelector with
    | none =>
      simp only [successCalls, successCallsUrl, hs, if_pos hne, List.mem_singleton] at hc
      simp [hc]
    | some s =>
      by_cases he : s = ""
      · simp only [successCalls, successCallsUrl, hs, he, if_pos rfl, if_pos hne,
          if_true, List.mem_singleton] at hc
        simp [hc]
      · simp only [successCalls, hs, if_neg he, List.mem_singleton] at hc
        simp [hc]

/-- Closed instance of C10: the `supabase` bundle with no success selector
always takes the URL strategy. -/
theorem resolved_pattern_nonempty_witness :
    successCalls (resolveSelectors (bareConfig "supabase")) =
      [DriverCall.waitForURL
        (resolveSelectors (bareConfig "supabase")).successUrlPattern 15000] :=
  (resolved_pattern_nonempty (bareConfig "supabase")).2.1 (by decide)

theorem execCalls_take (env : DriverCall → Bool) :
    ∀ l : List DriverCall, ∃ k, (execCalls env l).1 = l.take k := by
  intro l
  induction l with
  | nil => exact ⟨0, rfl⟩
  | cons c cs ih =>
    by_cases h : canFail c && !(env c)
    · exact ⟨1, by simp [execCalls, h]⟩
    · obtain ⟨k, hk⟩ := ih
      exact ⟨k + 1, by simp [execCalls, h, hk]⟩

/-- C6: with `multiStep` resolved true the engine, after filling the email
field, clicks the continue selector (falling back to the submit selector
when it is absent) and waits for the password selector to be *visible*
before filling the password; with `multiStep` false this continuation
click and visibility wait are absent. -/
theorem multiStep_flow (auth : AuthConfig) :
    ((resolveSelectors auth).multiStep = true →
      plannedCalls auth =
        [DriverCall.goto auth.loginUrl "networkidle" 30000,
         DriverCall.waitForSelector (resolveSelectors auth).emailSelector 10000 false,
         DriverCall.fill (resolveSelectors auth).emailSelector auth.email,
         DriverCall.click (strOr (resolveSelectors auth).continueSelector
           (resolveSelectors auth).submitSelector),
         DriverCall.waitForSelector (resolveSelectors auth).passwordSelector 10000 true,
         DriverCall.fill (resolveSelectors auth).passwordSelector auth.password,
         DriverCall.click (resolveSelectors auth).submitSelector]
        ++ successCalls (resolveSelectors auth)) ∧
    ((resolveSelectors auth).multiStep = false →
      plannedCalls auth =
        [DriverCall.goto auth.loginUrl "networkidle" 30000,
         DriverCall.waitForSelector (resolveSelectors auth).emailSelector 10000 false,
         DriverCall.fill (resolveSelectors auth).emailSelector auth.email,
         DriverCall.fill (resolveSelectors auth).passwordSelector auth.password,
         DriverCall.click (resolveSelectors auth).submitSelector]
        ++ successCalls (resolveSelectors auth)) ∧
    ((resolveSelectors auth).continueSelector = none →
      strOr (resolveSelectors auth).continueSelector
        (resolveSelectors auth).submitSelector
        = (resolveSelectors auth).submitSelector) := by
  refine ⟨?_, ?_, ?_⟩
  · intro h
    simp [plannedCalls, h]
  · intro h
    simp [plannedCalls, h]
  · intro h
    simp [strOr, h]

/-- Closed instance of C6: the clerk preset's multi-step call sequence. -/
theorem multiStep_flow_witness :
    plannedCalls (bareConfig "clerk") =
      [DriverCall.goto (bareConfig "clerk").loginUrl "networkidle" 30000,
       DriverCall.waitForSelector
         (resolveSelectors (bareConfig "clerk")).emailSelector 10000 false,
       DriverCall.fill (resolveSelectors (bareConfig "clerk")).emailSelector
         (bareConfig "clerk").email,
       DriverCall.click (strOr (resolveSelectors (bareConfig "clerk")).continueSelector
         (resolveSelectors (bareConfig "clerk")).submitSelector),
       DriverCall.waitForSelector
         (resolveSelectors (bareConfig "clerk")).passwordSelector 10000 true,
       DriverCall.fill (resolveSelectors (bareConfig "clerk")).passwordSelector
         (bareConfig "clerk").password,
       DriverCall.click (resolveSelectors (bareConfig "clerk")).submitSelector]
      ++ successCalls (resolveSelectors (bareConfig "clerk")) :=
  (multiStep_flow (bareConfig "clerk")).1 (by decide)

/-- C8: on a step's failure the engine aborts at once — the trace is a
prefix of the planned sequence, nothing is retried — and when the
email-field wait fails, the engine has issued no `fill` and no `click`
call at all. -/
theorem abort_on_email_wait_failure (env : DriverCall → Bool) (auth : AuthConfig)
    (h1 : env (DriverCall.goto auth.loginUrl "networkidle" 30000) = true)
    (h2 : env (DriverCall.waitForSelector (resolveSelectors auth).emailSelector
      10000 false) = false) :
    (authenticate env auth).2 = false ∧
    (authenticate env auth).1 =
      [DriverCall.goto auth.loginUrl "networkidle" 30000,
       DriverCall.waitForSelector (resolveSelectors auth).emailSelector 10000 false] ∧
    (∀ c ∈ (authenticate env auth).1, isFill c = false ∧ isClick c = false) ∧
    (∃ k, (authenticate env auth).1 = (plannedCalls auth).take k) := by
  have htrace : authenticate env auth =
      ([DriverCall.goto auth.loginUrl "networkidle" 30000,
        DriverCall.waitForSelector (resolveSelectors auth).emailSelector 10000 false],
       false) := by
    unfold authenticate plannedCalls
    simp [execCalls, canFail, h1, h2]
  refine ⟨by rw [htrace], by rw [htrace], ?_, ?_⟩
  · intro c hc
    rw [htrace] at hc
    simp at hc
    rcases hc with rfl | rfl <;> simp [isFill, isClick]
  · exact execCalls_take env (plannedCalls auth)

/-- Closed instance of C8: with the email-field wait failing on the
`generic` preset, the engine returns failure after exactly the navigation
and the failed wait. -/
theorem abort_on_email_wait_failure_witness :
    (authenticate failSelectorWaits (bareConfig "generic")).2 = false ∧
    (authenticate failSelectorWaits (bareConfig "generic")).1 =
      [DriverCall.goto (bareConfig "generic").loginUrl "networkidle" 30000,
       DriverCall.waitForSelector
         (resolveSelectors (bareConfig "generic")).emailSelector 10000 false] :=
  ⟨(abort_on_email_wait_failure failSelectorWaits (bareConfig "generic") rfl rfl).1,
   (abort_on_email_wait_failure failSelectorWaits (bareConfig "generic") rfl rfl).2.1⟩

/-- C9: each stage carries its own fixed timeout — navigation 30s, the
email wait 10s, the multi-step password wait 10s, success detection 15s
(its fallback being the fixed 5s sleep) — and the parameters of every
issued call, timeouts included, come from the environment-independent
planned sequence, so one step's behaviour cannot shorten a later step's
budget. -/
theorem per_step_timeouts (env : DriverCall → Bool) (auth : AuthConfig) :
    (plannedCalls auth).head? =
      some (DriverCall.goto auth.loginUrl "networkidle" 30000) ∧
    (plannedCalls auth)[1]? =
      some (DriverCall.waitForSelector
        (resolveSelectors auth).emailSelector 10000 false) ∧
    ((resolveSelectors auth).multiStep = true →
      DriverCall.waitForSelector (resolveSelectors auth).passwordSelector 10000 true
        ∈ plannedCalls auth) ∧
    (∀ c ∈ successCalls (resolveSelectors auth),
      timeoutOf c = some 15000 ∨ c = DriverCall.waitForTimeout 5000) ∧
    (∃ k, (authenticate env auth).1 = (plannedCalls auth).take k) := by
  refine ⟨by simp [plannedCalls], by simp [plannedCalls], ?_, ?_, ?_⟩
  · intro h
    simp [plannedCalls, h]
  · intro c hc
    match hs : (resolveSelectors auth).successSelector with
    | none =>
      simp only [successCalls, successCallsUrl, hs] at hc
      by_cases hp : (resolveSelectors auth).successUrlPattern = ""
      · simp [hp] at hc
        right
        exact hc
      · simp only [if_pos hp, List.mem_singleton] at hc
        left
        simp [hc, timeoutOf]
    | some s =>
      by_cases he : s = ""
      · simp only [successCalls, successCallsUrl, hs, he, if_pos rfl, if_true] at hc
        by_cases hp : (resolveSelectors auth).successUrlPattern = ""
        · simp [hp] at hc
          right
          exact hc
        · simp only [if_pos hp, List.mem_singleton] at hc
          left
          simp [hc, timeoutOf]
      · simp only [successCalls, hs, if_neg he, List.mem_singleton] at hc
        left
        simp [hc, timeoutOf]
  · exact execCalls_take env (plannedCalls auth)

/-- Closed instance of C9: the clerk flow's password wait appears in the
planned calls with its own 10-second budget. -/
theorem per_step_timeouts_witness :
    DriverCall.waitForSelector
      (resolveSelectors (bareConfig "clerk")).passwordSelector 10000 true
      ∈ plannedCalls (bareConfig "clerk") :=
  (per_step_timeouts (fun _ => true) (bareConfig "clerk")).2.2.1 (by decide)

end PlaywrightAuth
